import Mathlib

/-!
Verification of the comparison pipeline of `compare_source_files_streamlit.py`.

The pipeline is embedded shallowly: pure logic (file pairing, the per-sheet
equality short-circuit, the markdown-table response parsing, overview
assembly, the retry loop structure, the API-key check) is translated
directly from the source; external effects (the dashscope HTTP call, pandas
reading of workbooks, xlsxwriter output) are modelled as oracle inputs that
record the outcome the environment would produce.  Apostrophe quote marks of
the source's message strings are rendered as typographic quotes ‘…’.
-/

namespace CompareFiles

/-- Python substring test `sub in s`, expressed on lists of characters:
`sub` occurs somewhere in `s`. -/
def subOccurs (sub : List Char) : List Char → Bool
  | [] => sub.isEmpty
  | c :: rest => sub.isPrefixOf (c :: rest) || subOccurs sub rest

/-- Python `sub in s` on strings. -/
def pyContains (sub s : String) : Bool :=
  subOccurs sub.data s.data

/-- The characters Python `str.strip()` removes. -/
def pySpace (c : Char) : Bool :=
  c == ' ' || c == '\t' || c == '\n' || c == '\r' || c == '\x0b' || c == '\x0c'

/-- Drop the characters satisfying `p` from both ends of a character list. -/
def stripWhile (p : Char → Bool) (l : List Char) : List Char :=
  ((l.dropWhile p).reverse.dropWhile p).reverse

/-- Python `s.strip()`. -/
def pyStrip (s : String) : String :=
  ⟨stripWhile pySpace s.data⟩

/-- Python `s.strip('|')`: remove every leading and trailing `'|'` character. -/
def stripPipes (s : String) : String :=
  ⟨stripWhile (· == '|') s.data⟩

/-- Split a character list at every occurrence of the character `sep`;
like Python `str.split(sep)`, the empty list yields one empty field. -/
def splitOnChar (sep : Char) : List Char → List (List Char)
  | [] => [[]]
  | c :: rest =>
    if c == sep then
      [] :: splitOnChar sep rest
    else
      match splitOnChar sep rest with
      | [] => [[c]]
      | h :: t => (c :: h) :: t

/-- Python `s.split(sep)` for a one-character separator. -/
def pySplit (sep : Char) (s : String) : List String :=
  (splitOnChar sep s.data).map (fun l => ⟨l⟩)

/-- Python `pre + s` startswith test on strings. -/
def pyStartsWith (pre s : String) : Bool :=
  pre.data.isPrefixOf s.data

/-- Python endswith test on strings. -/
def pyEndsWith (suffix s : String) : Bool :=
  suffix.data.isSuffixOf s.data

/-- The cell split used for both the header and the data rows
(line 284 and line 287 of the source):
`[h.strip() for h in line.strip().strip('|').split('|')]`. -/
def parseCells (line : String) : List String :=
  (pySplit '|' (stripPipes (pyStrip line))).map pyStrip

/-- A pandas `DataFrame` as produced by the parsing code: an ordered list of
column names and ordered rows of string cells. -/
structure PDataFrame where
  columns : List String
  rows : List (List String)
deriving DecidableEq, Repr

/-- The note written into the `差异说明` column of the synthesized
placeholder row (line 296 of the source). -/
def noDiffNote : String := "Kimi报告在此工作表中未发现显著差异。"

/-- The `说明` cell of the fallback frame built when the first response line
has no pipe (line 298 of the source). -/
def parseFailNote (sheetName : String) : String :=
  s!"Kimi报告在工作表 ‘{sheetName}’ 中未发现差异或返回格式不正确。"

/-- The fallback frame of line 298:
`pd.DataFrame([\x7b'说明': ..., '原始输出': table_str\x7d])` — one row, the
explanation plus the raw (stripped) model output. -/
def parseFailureDf (sheetName tableStr : String) : PDataFrame :=
  { columns := ["说明", "原始输出"],
    rows := [[parseFailNote sheetName, tableStr]] }

/-- pandas column assignment `df[name] = val` on a one-row frame: if `name`
is already a column, overwrite that column's cell (every occurrence, as
pandas does for duplicated names); otherwise append a new column at the
end. -/
def dfSetColumn (cols row : List String) (name val : String) :
    List String × List String :=
  if name ∈ cols then
    (cols, (cols.zip row).map (fun cv => if cv.1 = name then val else cv.2))
  else
    (cols ++ [name], row ++ [val])

/-- `table_str.strip().split('\n')` where `table_str` is the stripped raw
response (lines 279–280 of the source strip twice). -/
def responseLines (comparisonResult : String) : List String :=
  pySplit '\n' (pyStrip (pyStrip comparisonResult))

/-- Translation of the response-table parsing block, lines 279–298 of
`perform_comparison`:

* if there are at least 2 lines, line 1 contains `|` and line 2 contains
  `---`: line 1 becomes the header, lines from index 3 on become data rows,
  keeping exactly those whose cell count equals the header's;
* else if line 1 contains `|`: a frame with that header and no rows is
  built; since such a frame is always empty, the guarded block always runs:
  a placeholder row of `无差异` cells is inserted and the `差异说明` column
  is assigned `noDiffNote`;
* else: the fallback frame carrying the raw stripped output. -/
def parseKimiResponse (sheetName comparisonResult : String) : PDataFrame :=
  let tableStr := pyStrip comparisonResult
  let lines := responseLines comparisonResult
  let l0 := lines.getD 0 ""
  let l1 := lines.getD 1 ""
  if 1 < lines.length ∧ pyContains "|" l0 = true ∧ pyContains "---" l1 = true then
    let header := parseCells l0
    let dataRows := lines.drop 2 |>.filterMap (fun line =>
      let parts := parseCells line
      if parts.length == header.length then some parts else none)
    { columns := header, rows := dataRows }
  else if pyContains "|" l0 = true then
    let header := parseCells l0
    let placeholder := List.replicate header.length "无差异"
    let cr := dfSetColumn header placeholder "差异说明" noDiffNote
    { columns := cr.1, rows := [cr.2] }
  else
    parseFailureDf sheetName tableStr

/-- A sheet as read by pandas: named columns and ordered rows.
`df1.equals(df2)` is exact structural and value equality. -/
structure Sheet where
  columns : List String
  rows : List (List String)
deriving DecidableEq, Repr

/-- What the per-sheet loop body (lines 260–318) records for one common
sheet. -/
inductive SheetOutcome where
  | identical (summary : String)
  | parsed (df : PDataFrame)
  | apiFailure (errorNote : String)
deriving DecidableEq, Repr

/-- The per-sheet loop body of lines 260–318: if the two frames are equal,
record the identical summary without calling the model; otherwise one call
to `get_comparison_from_kimi` is made (`kimiResult` is what it returns) and
its output is parsed, or an error frame is recorded when it returned
nothing.  The second component counts LLM invocations for the sheet. -/
def compareOneSheet (sheetName : String) (df1 df2 : Sheet)
    (kimiResult : Option String) : SheetOutcome × Nat :=
  if df1 = df2 then
    (.identical s!"工作表 ‘{sheetName}’ 在两个文件中的内容完全相同。", 0)
  else
    match kimiResult with
    | some r => (.parsed (parseKimiResponse sheetName r), 1)
    | none => (.apiFailure s!"未能从Kimi获取 ‘{sheetName}’ 的工作流比较结果。", 1)

/-- The retry loop of `get_comparison_from_kimi` (lines 76–103).  The list
`attempts` gives, for each successive dashscope call the loop would make,
the outcome the environment produces: `some content` for an HTTP-OK
response, `none` for an error status or an exception; its length is the
`retries` parameter (default 3).  Returns the function's result, the number
of calls actually made, and the list of sleeps performed (each of `delay`
seconds; a sleep happens after a failed attempt only when `attempt <
retries - 1`, i.e. when further attempts remain). -/
def getComparisonFromKimi (delay : Nat) :
    List (Option String) → Option String × Nat × List Nat
  | [] => (none, 0, [])
  | attempt :: rest =>
    match attempt with
    | some content => (some content, 1, [])
    | none =>
      if rest.isEmpty then (none, 1, [])
      else
        let r := getComparisonFromKimi delay rest
        (r.1, r.2.1 + 1, delay :: r.2.2)

/-- Python `os.path.basename` for forward-slash paths. -/
def pyBasename (path : String) : String :=
  (pySplit '/' path).getLastD path

/-- Line 193 of `perform_comparison`: its file enumeration —
`glob.glob(os.path.join(input_dir, '*.xlsx'))` is modelled as filtering the
directory listing by the `.xlsx` suffix, and lock files whose basename
starts with `~$` are excluded. -/
def eligibleFiles (dirListing : List String) : List String :=
  dirListing.filter (fun f => pyEndsWith ".xlsx" f && !(pyStartsWith "~$" (pyBasename f)))

/-- `itertools.combinations(l, 2)` in list order (line 200). -/
def pairsOf {α : Type} : List α → List (α × α)
  | [] => []
  | x :: xs => (xs.map (fun y => (x, y))) ++ pairsOf xs

/-- One row of the run-level overview sheet (`总览`): file names, terminal
status, note. -/
structure OverviewEntry where
  file1 : String
  file2 : String
  status : String
  note : String
deriving DecidableEq, Repr

/-- What the environment does for one file pair: reading either workbook
may raise (`readFail`), otherwise it yields the two sheet-name sets, and
the pair's report-writing block may itself raise (`pairWriteErr`). -/
inductive PairInput where
  | readFail (err : String)
  | ok (sheets1 sheets2 : List String) (pairWriteErr : Option String)
deriving Repr

/-- `sorted(list(sheets1 & sheets2))` (line 228): deduplicated
intersection in sorted order. -/
def commonSheetsOf (s1 s2 : List String) : List String :=
  ((s1.filter (fun x => x ∈ s2)).dedup).insertionSort (fun a b => a ≤ b)

/-- One iteration of the pair loop (lines 214–326): the overview entry the
iteration appends.  Reading errors give `读取错误` (line 225), an empty
common-sheet set gives `无共同工作表` (line 232), an exception inside the
pair block gives `处理错误` (line 326), and otherwise `已完成` with the
per-pair artifact name (line 321). -/
def processPairStep (file1Name file2Name : String) (inp : PairInput) :
    OverviewEntry :=
  match inp with
  | .readFail e => ⟨file1Name, file2Name, "读取错误", e⟩
  | .ok s1 s2 pairWriteErr =>
    if (commonSheetsOf s1 s2).isEmpty then
      ⟨file1Name, file2Name, "无共同工作表", "两个文件没有共同的工作表可供比较。"⟩
    else
      match pairWriteErr with
      | some e => ⟨file1Name, file2Name, "处理错误", e⟩
      | none =>
        ⟨file1Name, file2Name, "已完成",
          s!"比较结果已保存至: Comparison_{file1Name}_vs_{file2Name}.xlsx"⟩

/-- The pair loop of lines 213–326: every pair produces exactly one
overview entry (the `continue` statements move to the next pair; the
`try/except` around the pair body turns any exception into a `处理错误`
entry). -/
def buildOverview (filePairs : List (String × String))
    (env : String × String → PairInput) : List OverviewEntry :=
  filePairs.map (fun p => processPairStep (pyBasename p.1) (pyBasename p.2) (env p))

/-- `perform_comparison` (lines 189–340) at the report level: enumerate
eligible files, return `none` (no artifact) when fewer than 2, otherwise —
unless creating the overall workbook raises (`overallWriteErr`) — process
every unordered pair and return the overview rows written to the overall
artifact. -/
def performComparison (dirListing : List String) (overallWriteErr : Option String)
    (env : String × String → PairInput) : Option (List OverviewEntry) :=
  let excelFiles := eligibleFiles dirListing
  if excelFiles.length < 2 then none
  else
    match overallWriteErr with
    | some _ => none
    | none => some (buildOverview (pairsOf excelFiles) env)

/-- The credential gate of line 360: the run proceeds unless
`not api_key or "sk-" not in api_key` (an empty string is falsy). -/
def apiKeyAccepted (apiKey : String) : Bool :=
  !(apiKey.data.isEmpty || !(pyContains "sk-" apiKey))

end CompareFiles

namespace CompareFiles

/-! ### Properties of the pair enumeration -/

theorem pairsOf_length {α : Type} (l : List α) :
    (pairsOf l).length = l.length.choose 2 := by
  induction l with
  | nil => rfl
  | cons x xs ih =>
    simp [pairsOf, ih, Nat.choose_succ_succ, Nat.choose_one_right, Nat.add_comm]

theorem mem_pairsOf {α : Type} {l : List α} {p : α × α}
    (hp : p ∈ pairsOf l) : p.1 ∈ l ∧ p.2 ∈ l := by
  induction l with
  | nil => simp [pairsOf] at hp
  | cons x xs ih =>
    simp only [pairsOf, List.mem_append, List.mem_map] at hp
    rcases hp with ⟨y, hy, rfl⟩ | hp
    · exact ⟨List.mem_cons_self x xs, List.mem_cons_of_mem _ hy⟩
    · obtain ⟨h1, h2⟩ := ih hp
      exact ⟨List.mem_cons_of_mem _ h1, List.mem_cons_of_mem _ h2⟩

theorem pairsOf_nodup {α : Type} {l : List α} (hl : l.Nodup) :
    (pairsOf l).Nodup := by
  induction l with
  | nil => simp [pairsOf]
  | cons x xs ih =>
    obtain ⟨hx, hxs⟩ := List.nodup_cons.mp hl
    refine List.Nodup.append (hxs.map fun a b h => congrArg Prod.snd h) (ih hxs) ?_
    intro p hp1 hp2
    obtain ⟨y, hy, rfl⟩ := List.mem_map.mp hp1
    exact hx (mem_pairsOf hp2).1

theorem mem_pairsOf_ne {α : Type} {l : List α} (hl : l.Nodup) :
    ∀ p ∈ pairsOf l, p.1 ≠ p.2 := by
  induction l with
  | nil => intro p hp; simp [pairsOf] at hp
  | cons x xs ih =>
    obtain ⟨hx, hxs⟩ := List.nodup_cons.mp hl
    intro p hp
    simp only [pairsOf, List.mem_append, List.mem_map] at hp
    rcases hp with ⟨y, hy, rfl⟩ | hp
    · intro h
      apply hx
      rw [show x = y from h]
      exact hy
    · exact ih hxs p hp

/-! ### Claim theorems -/

/-- Claim C1: with `N ≥ 2` distinct eligible files and a successfully
created overall artifact, `performComparison` produces one overview entry
per unordered pair — exactly `C(N,2)` of them, with no duplicate pair and
no self-pair, in the deterministic enumeration order of `pairsOf`, which
for three files `A, B, C` lists `(A,B), (A,C), (B,C)`. -/
theorem spec_c1 (dirListing : List String) (env : String × String → PairInput)
    (hnd : (eligibleFiles dirListing).Nodup)
    (h2 : 2 ≤ (eligibleFiles dirListing).length) :
    performComparison dirListing none env =
      some (buildOverview (pairsOf (eligibleFiles dirListing)) env) ∧
    (buildOverview (pairsOf (eligibleFiles dirListing)) env).length =
      ((eligibleFiles dirListing).length).choose 2 ∧
    (pairsOf (eligibleFiles dirListing)).Nodup ∧
    (∀ p ∈ pairsOf (eligibleFiles dirListing), p.1 ≠ p.2) ∧
    (∀ a b c : String, pairsOf [a, b, c] = [(a, b), (a, c), (b, c)]) := by
  refine ⟨?_, ?_, pairsOf_nodup hnd, mem_pairsOf_ne hnd, fun a b c => rfl⟩
  · simp only [performComparison]
    rw [if_neg (by omega)]
  · simp [buildOverview, pairsOf_length]

/-- Witness for C1 at the three files `A.xlsx, B.xlsx, C.xlsx`. -/
theorem spec_c1_witness :
    ((eligibleFiles ["A.xlsx", "B.xlsx", "C.xlsx"]).Nodup ∧
      2 ≤ (eligibleFiles ["A.xlsx", "B.xlsx", "C.xlsx"]).length) ∧
    (performComparison ["A.xlsx", "B.xlsx", "C.xlsx"] none
        (fun _ => PairInput.ok ["Sheet1"] ["Sheet1"] none) =
      some (buildOverview (pairsOf (eligibleFiles ["A.xlsx", "B.xlsx", "C.xlsx"]))
        (fun _ => PairInput.ok ["Sheet1"] ["Sheet1"] none)) ∧
    (buildOverview (pairsOf (eligibleFiles ["A.xlsx", "B.xlsx", "C.xlsx"]))
        (fun _ => PairInput.ok ["Sheet1"] ["Sheet1"] none)).length =
      ((eligibleFiles ["A.xlsx", "B.xlsx", "C.xlsx"]).length).choose 2 ∧
    (pairsOf (eligibleFiles ["A.xlsx", "B.xlsx", "C.xlsx"])).Nodup ∧
    (∀ p ∈ pairsOf (eligibleFiles ["A.xlsx", "B.xlsx", "C.xlsx"]), p.1 ≠ p.2) ∧
    (∀ a b c : String, pairsOf [a, b, c] = [(a, b), (a, c), (b, c)])) :=
  ⟨⟨by decide, by decide⟩,
    spec_c1 ["A.xlsx", "B.xlsx", "C.xlsx"]
      (fun _ => PairInput.ok ["Sheet1"] ["Sheet1"] none) (by decide) (by decide)⟩

/-- Claim C2: when the two frames of a common sheet are structurally and
value-equal, the per-sheet comparator records the identical outcome and
makes zero LLM invocations, whatever the model would have answered. -/
theorem spec_c2 (sheetName : String) (df1 df2 : Sheet) (kimiResult : Option String)
    (h : df1 = df2) :
    compareOneSheet sheetName df1 df2 kimiResult =
      (.identical s!"工作表 ‘{sheetName}’ 在两个文件中的内容完全相同。", 0) := by
  simp [compareOneSheet, h]

/-- Witness for C2 at a concrete one-cell sheet. -/
theorem spec_c2_witness :
    (⟨["A"], [["1"]]⟩ : Sheet) = ⟨["A"], [["1"]]⟩ ∧
    compareOneSheet "S" ⟨["A"], [["1"]]⟩ ⟨["A"], [["1"]]⟩ (some "anything") =
      (.identical "工作表 ‘S’ 在两个文件中的内容完全相同。", 0) :=
  ⟨rfl, spec_c2 "S" ⟨["A"], [["1"]]⟩ ⟨["A"], [["1"]]⟩ (some "anything") rfl⟩

/-- Claim C3: on sustained failure with the default `retries = 3` and
`delay = 5`, the retry loop makes exactly 3 calls, sleeps exactly twice
(5 seconds each, never after the final attempt) and only then returns
failure. -/
theorem spec_c3 (attempts : List (Option String))
    (hlen : attempts.length = 3) (hfail : ∀ a ∈ attempts, a = none) :
    getComparisonFromKimi 5 attempts = (none, 3, [5, 5]) := by
  obtain ⟨a, b, c, rfl⟩ := List.length_eq_three.mp hlen
  have ha := hfail a (by simp)
  have hb := hfail b (by simp)
  have hc := hfail c (by simp)
  subst ha hb hc
  rfl

/-- Witness for C3: three failing attempts. -/
theorem spec_c3_witness :
    (([none, none, none] : List (Option String)).length = 3 ∧
      ∀ a ∈ ([none, none, none] : List (Option String)), a = none) ∧
    getComparisonFromKimi 5 [none, none, none] = (none, 3, [5, 5]) :=
  ⟨⟨by decide, by decide⟩, spec_c3 [none, none, none] (by decide) (by decide)⟩

/-- Claim C8: with fewer than 2 eligible files the orchestrator returns an
absent result before creating any output artifact. -/
theorem spec_c8 (dirListing : List String) (overallWriteErr : Option String)
    (env : String × String → PairInput)
    (h : (eligibleFiles dirListing).length < 2) :
    performComparison dirListing overallWriteErr env = none := by
  simp only [performComparison]
  rw [if_pos h]

/-- Witness for C8 at a directory holding exactly one workbook. -/
theorem spec_c8_witness :
    (eligibleFiles ["/in/only.xlsx"]).length < 2 ∧
    performComparison ["/in/only.xlsx"] none
      (fun _ => PairInput.ok ["Sheet1"] ["Sheet1"] none) = none :=
  ⟨by decide, spec_c8 ["/in/only.xlsx"] none
    (fun _ => PairInput.ok ["Sheet1"] ["Sheet1"] none) (by decide)⟩

end CompareFiles

namespace CompareFiles

/-- `subOccurs` decides substring occurrence: Python `sub in s` holds
exactly when `sub` is an infix of `s`. -/
theorem subOccurs_eq_true_iff (sub l : List Char) :
    subOccurs sub l = true ↔ sub <:+: l := by
  induction l with
  | nil =>
    simp [subOccurs, List.isEmpty_iff, List.infix_nil]
  | cons c rest ih =>
    simp [subOccurs, List.isPrefixOf_iff_prefix, ih, List.infix_cons_iff]

/-- Claim C9 (amended): the credential gate lets the run proceed exactly
when the API key is non-empty and contains `"sk-"` as a substring —
anywhere in the key, not necessarily as a prefix. -/
theorem spec_c9 (apiKey : String) :
    apiKeyAccepted apiKey = true ↔ (apiKey ≠ "" ∧ "sk-".data <:+: apiKey.data) := by
  unfold apiKeyAccepted pyContains
  rw [Bool.not_eq_true']
  simp [subOccurs_eq_true_iff, String.ext_iff, List.isEmpty_iff]

/-- Witness for C9 at a well-formed key. -/
theorem spec_c9_witness : apiKeyAccepted "sk-abc" = true :=
  (spec_c9 "sk-abc").mpr ⟨by decide, by decide⟩

/-- Counterexample to C9 as stated: the key `"Xsk-123"` does not carry the
`"sk-"` prefix, yet the gate accepts it, because line 360 tests substring
containment (`"sk-" not in api_key`), not a prefix. -/
theorem spec_c9_counterexample :
    apiKeyAccepted "Xsk-123" = true ∧ ¬ ("sk-".data <+: "Xsk-123".data) := by
  decide

end CompareFiles

namespace CompareFiles

/-! ### Properties of the response-table parsing -/

theorem filterMap_guard {α β : Type} (f : α → β) (p : β → Bool) (l : List α) :
    (l.filterMap fun a => if p (f a) then some (f a) else none) =
      (l.map f).filter p := by
  induction l with
  | nil => rfl
  | cons x xs ih =>
    cases hp : p (f x) with
    | false => simp [List.filterMap_cons, List.filter_cons, hp, ih]
    | true => simp [List.filterMap_cons, List.filter_cons, hp, ih]

/-- Assigning `val` to some column of a one-row frame puts `val` into the
row, whether the column already exists or is appended. -/
theorem mem_map_zip_set (cols : List String) (name val : String) :
    ∀ row : List String, name ∈ cols → row.length = cols.length →
      val ∈ (cols.zip row).map (fun cv => if cv.1 = name then val else cv.2) := by
  induction cols with
  | nil => intro row h _; simp at h
  | cons c cs ih =>
    intro row h hlen
    cases row with
    | nil => simp at hlen
    | cons r rs =>
      simp only [List.zip_cons_cons, List.map_cons]
      by_cases hc : c = name
      · simp [hc]
      · rcases List.mem_cons.mp h with h1 | h2
        · exact absurd h1.symm hc
        · exact List.mem_cons_of_mem _ (ih rs h2 (by simpa using hlen))

theorem mem_dfSetColumn (cols row : List String) (name val : String)
    (hlen : row.length = cols.length) :
    val ∈ (dfSetColumn cols row name val).2 := by
  unfold dfSetColumn
  by_cases h : name ∈ cols
  · rw [if_pos h]
    exact mem_map_zip_set cols name val row h hlen
  · rw [if_neg h]
    simp

/-- Claim C4 (amended): whenever the first line of the trimmed response
carries no pipe delimiter — in particular any non-table text — the parse
falls through to the fallback frame, which preserves the (stripped) raw
text in its `原始输出` cell.  (When the first line does contain a pipe, a
response of fewer than 2 lines instead takes the header-only branch; see
the counterexample.) -/
theorem spec_c4 (sheetName s : String) (hne : s ≠ "")
    (hpipe : pyContains "|" ((responseLines s).getD 0 "") = false) :
    parseKimiResponse sheetName s = parseFailureDf sheetName (pyStrip s) := by
  have hp : pyContains "|" ((responseLines s)[0]?.getD "") = false := by
    rw [← List.getD_eq_getElem?_getD]
    exact hpipe
  simp only [parseKimiResponse]
  rw [if_neg (by simp [hp]), if_neg (by simp [hp])]

/-- Witness for C4 (amended) at the spec's example input `"not a table"`. -/
theorem spec_c4_witness :
    (("not a table" : String) ≠ "" ∧
      pyContains "|" ((responseLines "not a table").getD 0 "") = false) ∧
    parseKimiResponse "Sheet1" "not a table" =
      parseFailureDf "Sheet1" (pyStrip "not a table") :=
  ⟨⟨by decide, by decide⟩, spec_c4 "Sheet1" "not a table" (by decide) (by decide)⟩

/-- Counterexample to C4 as stated: the one-line response `"| A | B |"` has
fewer than 2 lines, yet the parser does not produce the fallback
(ParseFailure) frame — whose columns are always `["说明", "原始输出"]` —
but the header-only placeholder table, because line 282 only reaches the
fallback when the first line lacks a pipe. -/
theorem spec_c4_counterexample :
    (("| A | B |" : String) ≠ "" ∧ (responseLines "| A | B |").length < 2) ∧
    parseKimiResponse "Sheet1" "| A | B |" =
      ⟨["A", "B", "差异说明"], [["无差异", "无差异", noDiffNote]]⟩ ∧
    (parseKimiResponse "Sheet1" "| A | B |").columns ≠ ["说明", "原始输出"] := by
  decide

end CompareFiles

namespace CompareFiles

/-- Claim C5: in the separator branch (≥ 2 lines, pipe in line 1, `---` in
line 2) the parsed rows are exactly the candidate rows from the third line
on whose cell count equals the header's, kept in order with their cells
unchanged; every mismatched row is dropped, and every retained row has
exactly the header's cell count (no padding or truncation). -/
theorem spec_c5 (sheetName s : String)
    (h1 : 1 < (responseLines s).length)
    (h2 : pyContains "|" ((responseLines s).getD 0 "") = true)
    (h3 : pyContains "---" ((responseLines s).getD 1 "") = true) :
    parseKimiResponse sheetName s =
      ⟨parseCells ((responseLines s).getD 0 ""),
        (((responseLines s).drop 2).map parseCells).filter
          (fun r => r.length == (parseCells ((responseLines s).getD 0 "")).length)⟩ ∧
    ∀ r ∈ (parseKimiResponse sheetName s).rows,
      r.length = (parseCells ((responseLines s).getD 0 "")).length := by
  have hbr : parseKimiResponse sheetName s =
      ⟨parseCells ((responseLines s).getD 0 ""),
        (((responseLines s).drop 2).map parseCells).filter
          (fun r => r.length == (parseCells ((responseLines s).getD 0 "")).length)⟩ := by
    simp only [parseKimiResponse]
    rw [if_pos ⟨h1, h2, h3⟩]
    exact congrArg _ (filterMap_guard parseCells
      (fun r => r.length == (parseCells ((responseLines s).getD 0 "")).length) _)
  refine ⟨hbr, ?_⟩
  intro r hr
  rw [hbr] at hr
  have := List.of_mem_filter hr
  simpa using this

/-- Witness for C5 at the spec's example with one extra malformed row:
the row `| x |` is dropped, `| 1 | 2 |` is kept unchanged. -/
theorem spec_c5_witness :
    (1 < (responseLines "| A | B |\n|---|---|\n| 1 | 2 |\n| x |").length ∧
      pyContains "|"
        ((responseLines "| A | B |\n|---|---|\n| 1 | 2 |\n| x |").getD 0 "") = true ∧
      pyContains "---"
        ((responseLines "| A | B |\n|---|---|\n| 1 | 2 |\n| x |").getD 1 "") = true) ∧
    (parseKimiResponse "S" "| A | B |\n|---|---|\n| 1 | 2 |\n| x |" =
      ⟨parseCells ((responseLines "| A | B |\n|---|---|\n| 1 | 2 |\n| x |").getD 0 ""),
        (((responseLines "| A | B |\n|---|---|\n| 1 | 2 |\n| x |").drop 2).map parseCells).filter
          (fun r => r.length ==
            (parseCells ((responseLines "| A | B |\n|---|---|\n| 1 | 2 |\n| x |").getD 0 "")).length)⟩ ∧
    ∀ r ∈ (parseKimiResponse "S" "| A | B |\n|---|---|\n| 1 | 2 |\n| x |").rows,
      r.length =
        (parseCells ((responseLines "| A | B |\n|---|---|\n| 1 | 2 |\n| x |").getD 0 "")).length) ∧
    parseKimiResponse "S" "| A | B |\n|---|---|\n| 1 | 2 |\n| x |" =
      ⟨["A", "B"], [["1", "2"]]⟩ :=
  ⟨⟨by decide, by decide, by decide⟩,
    spec_c5 "S" "| A | B |\n|---|---|\n| 1 | 2 |\n| x |" (by decide) (by decide) (by decide),
    by decide⟩

/-- The header-only branch when `差异说明` is already a header cell: the
column set stays the header and the matching cells of the placeholder row
are overwritten with the note. -/
theorem parseKimiResponse_headerOnly_of_mem (sheetName s : String)
    (hnot : ¬(1 < (responseLines s).length ∧
      pyContains "|" ((responseLines s).getD 0 "") = true ∧
      pyContains "---" ((responseLines s).getD 1 "") = true))
    (hpipe : pyContains "|" ((responseLines s).getD 0 "") = true)
    (hmem : "差异说明" ∈ parseCells ((responseLines s).getD 0 "")) :
    parseKimiResponse sheetName s =
      ⟨parseCells ((responseLines s).getD 0 ""),
        [((parseCells ((responseLines s).getD 0 "")).zip
            (List.replicate (parseCells ((responseLines s).getD 0 "")).length "无差异")).map
          (fun cv => if cv.1 = "差异说明" then noDiffNote else cv.2)]⟩ := by
  simp only [parseKimiResponse]
  rw [if_neg hnot, if_pos hpipe]
  unfold dfSetColumn
  rw [if_pos hmem]

/-- The header-only branch when `差异说明` is not a header cell: a fresh
`差异说明` column is appended, as is the note cell of the placeholder
row. -/
theorem parseKimiResponse_headerOnly_of_not_mem (sheetName s : String)
    (hnot : ¬(1 < (responseLines s).length ∧
      pyContains "|" ((responseLines s).getD 0 "") = true ∧
      pyContains "---" ((responseLines s).getD 1 "") = true))
    (hpipe : pyContains "|" ((responseLines s).getD 0 "") = true)
    (hmem : "差异说明" ∉ parseCells ((responseLines s).getD 0 "")) :
    parseKimiResponse sheetName s =
      ⟨parseCells ((responseLines s).getD 0 "") ++ ["差异说明"],
        [List.replicate (parseCells ((responseLines s).getD 0 "")).length "无差异" ++
          [noDiffNote]]⟩ := by
  simp only [parseKimiResponse]
  rw [if_neg hnot, if_pos hpipe]
  unfold dfSetColumn
  rw [if_neg hmem]

/-- Claim C6: a response whose trimmed text is a single header line
containing a pipe parses to a table whose columns start with that header
and whose sole row is the synthesized placeholder carrying the
no-difference note. -/
theorem spec_c6 (sheetName s : String)
    (h1 : (responseLines s).length = 1)
    (h2 : pyContains "|" ((responseLines s).getD 0 "") = true) :
    (parseKimiResponse sheetName s).columns.take
        (parseCells ((responseLines s).getD 0 "")).length =
      parseCells ((responseLines s).getD 0 "") ∧
    (parseKimiResponse sheetName s).rows.length = 1 ∧
    noDiffNote ∈ (parseKimiResponse sheetName s).rows.getD 0 [] := by
  have hnot : ¬(1 < (responseLines s).length ∧
      pyContains "|" ((responseLines s).getD 0 "") = true ∧
      pyContains "---" ((responseLines s).getD 1 "") = true) := by
    rw [h1]; rintro ⟨h, -⟩; exact absurd h (by decide)
  by_cases hmem : "差异说明" ∈ parseCells ((responseLines s).getD 0 "")
  · rw [parseKimiResponse_headerOnly_of_mem sheetName s hnot h2 hmem]
    generalize parseCells ((responseLines s).getD 0 "") = H at hmem ⊢
    exact ⟨List.take_length _, rfl,
      mem_map_zip_set _ _ _ _ hmem (List.length_replicate _ _)⟩
  · rw [parseKimiResponse_headerOnly_of_not_mem sheetName s hnot h2 hmem]
    generalize parseCells ((responseLines s).getD 0 "") = H at hmem ⊢
    refine ⟨List.take_left _ _, rfl, ?_⟩
    simp

/-- Witness for C6 at the spec's example header `"| A | B |"`. -/
theorem spec_c6_witness :
    ((responseLines "| A | B |").length = 1 ∧
      pyContains "|" ((responseLines "| A | B |").getD 0 "") = true) ∧
    ((parseKimiResponse "S" "| A | B |").columns.take
        (parseCells ((responseLines "| A | B |").getD 0 "")).length =
      parseCells ((responseLines "| A | B |").getD 0 "") ∧
    (parseKimiResponse "S" "| A | B |").rows.length = 1 ∧
    noDiffNote ∈ (parseKimiResponse "S" "| A | B |").rows.getD 0 []) :=
  ⟨⟨by decide, by decide⟩, spec_c6 "S" "| A | B |" (by decide) (by decide)⟩

/-- Claim C10: in the header-only branch the placeholder assignment always
writes a `差异说明` column: the produced columns contain `差异说明`; they
equal the parsed header exactly when the header already contains
`差异说明`, and otherwise have one more column than the header. -/
theorem spec_c10 (sheetName s : String)
    (hnot : ¬(1 < (responseLines s).length ∧
      pyContains "|" ((responseLines s).getD 0 "") = true ∧
      pyContains "---" ((responseLines s).getD 1 "") = true))
    (hpipe : pyContains "|" ((responseLines s).getD 0 "") = true) :
    "差异说明" ∈ (parseKimiResponse sheetName s).columns ∧
    ("差异说明" ∈ parseCells ((responseLines s).getD 0 "") →
      (parseKimiResponse sheetName s).columns = parseCells ((responseLines s).getD 0 "")) ∧
    ("差异说明" ∉ parseCells ((responseLines s).getD 0 "") →
      (parseKimiResponse sheetName s).columns.length =
        (parseCells ((responseLines s).getD 0 "")).length + 1) := by
  by_cases hmem : "差异说明" ∈ parseCells ((responseLines s).getD 0 "")
  · rw [parseKimiResponse_headerOnly_of_mem sheetName s hnot hpipe hmem]
    generalize parseCells ((responseLines s).getD 0 "") = H at hmem ⊢
    exact ⟨hmem, fun _ => rfl, fun h => absurd hmem h⟩
  · rw [parseKimiResponse_headerOnly_of_not_mem sheetName s hnot hpipe hmem]
    generalize parseCells ((responseLines s).getD 0 "") = H at hmem ⊢
    refine ⟨by simp, fun h => absurd h hmem, fun _ => by simp⟩

/-- Witness for C10 at a header not containing `差异说明`: the produced
table has one more column than the parsed two-cell header. -/
theorem spec_c10_witness :
    (¬(1 < (responseLines "| X | Y |").length ∧
      pyContains "|" ((responseLines "| X | Y |").getD 0 "") = true ∧
      pyContains "---" ((responseLines "| X | Y |").getD 1 "") = true) ∧
    pyContains "|" ((responseLines "| X | Y |").getD 0 "") = true) ∧
    ("差异说明" ∈ (parseKimiResponse "S" "| X | Y |").columns ∧
    ("差异说明" ∈ parseCells ((responseLines "| X | Y |").getD 0 "") →
      (parseKimiResponse "S" "| X | Y |").columns =
        parseCells ((responseLines "| X | Y |").getD 0 "")) ∧
    ("差异说明" ∉ parseCells ((responseLines "| X | Y |").getD 0 "") →
      (parseKimiResponse "S" "| X | Y |").columns.length =
        (parseCells ((responseLines "| X | Y |").getD 0 "")).length + 1)) :=
  ⟨⟨by decide, by decide⟩, spec_c10 "S" "| X | Y |" (by decide) (by decide)⟩

end CompareFiles

namespace CompareFiles

/-- Equation lemmas for the four exits of one pair-loop iteration. -/
theorem processPairStep_readFail (file1Name file2Name e : String) :
    processPairStep file1Name file2Name (.readFail e) =
      ⟨file1Name, file2Name, "读取错误", e⟩ := rfl

theorem processPairStep_noCommon (file1Name file2Name : String)
    (s1 s2 : List String) (pairWriteErr : Option String)
    (hc : (commonSheetsOf s1 s2).isEmpty = true) :
    processPairStep file1Name file2Name (.ok s1 s2 pairWriteErr) =
      ⟨file1Name, file2Name, "无共同工作表", "两个文件没有共同的工作表可供比较。"⟩ := by
  simp only [processPairStep]
  rw [if_pos hc]

theorem processPairStep_pairErr (file1Name file2Name : String)
    (s1 s2 : List String) (e : String)
    (hc : ¬(commonSheetsOf s1 s2).isEmpty = true) :
    processPairStep file1Name file2Name (.ok s1 s2 (some e)) =
      ⟨file1Name, file2Name, "处理错误", e⟩ := by
  simp only [processPairStep]
  rw [if_neg hc]

theorem processPairStep_done (file1Name file2Name : String)
    (s1 s2 : List String)
    (hc : ¬(commonSheetsOf s1 s2).isEmpty = true) :
    processPairStep file1Name file2Name (.ok s1 s2 none) =
      ⟨file1Name, file2Name, "已完成",
        s!"比较结果已保存至: Comparison_{file1Name}_vs_{file2Name}.xlsx"⟩ := by
  simp only [processPairStep]
  rw [if_neg hc]

/-- Claim C7: whatever the environment does for each pair (read failure, no
common sheets, an exception inside the pair block, or success), the loop
records exactly one overview entry per pair, in pair order — so an error on
one pair never prevents the entries of the later pairs — and every entry's
status is one of the four recorded statuses. -/
theorem spec_c7 (filePairs : List (String × String))
    (env : String × String → PairInput) :
    (buildOverview filePairs env).length = filePairs.length ∧
    (∀ i, i < filePairs.length →
      (buildOverview filePairs env).getD i ⟨"", "", "", ""⟩ =
        processPairStep (pyBasename (filePairs.getD i ("", "")).1)
          (pyBasename (filePairs.getD i ("", "")).2)
          (env (filePairs.getD i ("", "")))) ∧
    (∀ e ∈ buildOverview filePairs env,
      e.status ∈ ["已完成", "读取错误", "无共同工作表", "处理错误"]) := by
  refine ⟨by simp [buildOverview], ?_, ?_⟩
  · intro i hi
    have hx : filePairs[i]? = some filePairs[i] := List.getElem?_eq_getElem hi
    simp [buildOverview, List.getD_eq_getElem?_getD, List.getElem?_map, hx]
  · intro e he
    simp only [buildOverview, List.mem_map] at he
    obtain ⟨p, -, rfl⟩ := he
    cases env p with
    | readFail err =>
      rw [processPairStep_readFail]
      exact show ("读取错误" : String) ∈ _ by decide
    | ok s1 s2 pairWriteErr =>
      by_cases hc : (commonSheetsOf s1 s2).isEmpty = true
      · rw [processPairStep_noCommon _ _ _ _ _ hc]
        exact show ("无共同工作表" : String) ∈ _ by decide
      · cases pairWriteErr with
        | some e2 =>
          rw [processPairStep_pairErr _ _ _ _ _ hc]
          exact show ("处理错误" : String) ∈ _ by decide
        | none =>
          rw [processPairStep_done _ _ _ _ hc]
          exact show ("已完成" : String) ∈ _ by decide

/-- Witness for C7: a single pair whose reading fails still yields its one
overview entry. -/
theorem spec_c7_witness :
    0 < ([(("a.xlsx" : String), ("b.xlsx" : String))]).length ∧
    (buildOverview [("a.xlsx", "b.xlsx")]
        (fun _ => PairInput.readFail "boom")).getD 0 ⟨"", "", "", ""⟩ =
      processPairStep
        (pyBasename (([(("a.xlsx" : String), ("b.xlsx" : String))].getD 0 ("", "")).1))
        (pyBasename (([(("a.xlsx" : String), ("b.xlsx" : String))].getD 0 ("", "")).2))
        ((fun _ => PairInput.readFail "boom")
          ([(("a.xlsx" : String), ("b.xlsx" : String))].getD 0 ("", ""))) :=
  ⟨by decide,
    (spec_c7 [("a.xlsx", "b.xlsx")] (fun _ => PairInput.readFail "boom")).2.1 0 (by decide)⟩

end CompareFiles
